import Mathlib

/-!
Verification of the preset-to-command translation and batch-execution
pipeline of hb-ffmpeg-conv (src/hb-ffmpeg-conv.cpp).

The embedding below mirrors the source functions with the same names where
possible.  Machine integers of the source are modelled as Int, JSON numbers
as integers (all claims use integral values; floating point is out of
scope), and filesystem or process effects as explicit oracle parameters.
Fallible extraction is modelled in the Except monad, mirroring thrown
nlohmann exceptions.
-/

/-- Normalized preset record, mirroring struct Settings of the source. -/
structure Settings where
  preset_name : String
  video_encoder : String
  video_bitrate : String
  video_preset : String
  video_profile : String
  video_framerate : String
  video_quality : String
  video_quality_type : String
  video_multipass : Bool
  picture_width : String
  picture_height : String
  audio_encoder : String
  audio_bitrate : String
  audio_mixdown : String
  container : String
deriving DecidableEq

/-- Translated encode parameters, mirroring struct FFmpegParams of the source. -/
structure FFmpegParams where
  vcodec : String
  acodec : String
  audio_channels : String
  quality : String
  format : String
  preset : String
  profile : String
  framerate : String
  resolution : String
  multipass : Bool
  preset_name : String
deriving DecidableEq

/-- JSON value model for the preset document (nlohmann::json subset).
Numbers are modelled as integers: every numeric field exercised by the
claims holds an integral value. -/
inductive JVal where
  | num (n : Int)
  | str (s : String)
  | bool (b : Bool)
  | arr (xs : List JVal)
  | obj (fields : List (String × JVal))

/-- Field lookup in an object field list (first match wins). -/
def jlookup : List (String × JVal) → String → Option JVal
  | [], _ => none
  | (k, v) :: rest, key => if k = key then some v else jlookup rest key

/-- Object field access; none on non-objects or missing keys. -/
def JVal.getField : JVal → String → Option JVal
  | .obj fs, key => jlookup fs key
  | _, _ => none

/-- Models json::contains: true only for objects holding the key. -/
def jcontains (j : JVal) (key : String) : Bool :=
  (j.getField key).isSome

/-- Models j.value(key, default) with a string default: returns the default
when the key is absent, the string when present, and throws (error) when the
stored value has another type or j is not an object. -/
def jvalue_str (j : JVal) (key : String) (dflt : String) : Except String String :=
  match j with
  | .obj fs =>
    match jlookup fs key with
    | none => .ok dflt
    | some (.str s) => .ok s
    | some _ => .error "type_error.302"
  | _ => .error "type_error.306"

/-- Models j.value(key, default) with a boolean default. -/
def jvalue_bool (j : JVal) (key : String) (dflt : Bool) : Except String Bool :=
  match j with
  | .obj fs =>
    match jlookup fs key with
    | none => .ok dflt
    | some (.bool b) => .ok b
    | some _ => .error "type_error.302"
  | _ => .error "type_error.306"

/-- Models get of an int (and, numbers being integral here, get of a double):
succeeds on a JSON number and throws nlohmann type_error.302 on any other
type, in particular on a numeric string. -/
def jget_int : JVal → Except String Int
  | .num n => .ok n
  | _ => .error "type_error.302"

/-- Models std::to_string on int. -/
def cpp_to_string_int (n : Int) : String := toString n

/-- Models std::to_string on a double holding an integral value: a fixed
six-decimal rendering, so 20 becomes 20.000000. -/
def cpp_to_string_double (n : Int) : String := toString n ++ ".000000"

/-- Translation of extract_preset_settings (source lines 143-219).  Each
block mirrors one field extraction of the source; thrown nlohmann
exceptions become errors of the Except monad.  The first preset of
PresetList is authoritative; an empty or missing list is the documented
undefined-input precondition and is modelled as an error. -/
def extract_preset_settings (preset_data : JVal) : Except String Settings := do
  let plist := (preset_data.getField "PresetList").getD (JVal.arr [])
  let preset ←
    match plist with
    | JVal.arr (p :: _) => Except.ok p
    | _ => Except.error "PresetList missing or empty"
  let audio_list := (preset.getField "AudioList").getD (JVal.arr [])
  let audio_settings :=
    match audio_list with
    | JVal.arr (a :: _) => a
    | _ => JVal.obj []
  let preset_name ← jvalue_str preset "PresetName" ""
  let video_encoder ← jvalue_str preset "VideoEncoder" ""
  let video_bitrate ←
    if jcontains preset "VideoAvgBitrate" then
      (jget_int ((preset.getField "VideoAvgBitrate").getD (JVal.obj []))).map cpp_to_string_int
    else Except.ok "0"
  let video_preset ← jvalue_str preset "VideoPreset" ""
  let video_profile ← jvalue_str preset "VideoProfile" ""
  let video_framerate ←
    if jcontains preset "VideoFramerate" then
      match (preset.getField "VideoFramerate").getD (JVal.obj []) with
      | JVal.str s => Except.ok s
      | v => (jget_int v).map cpp_to_string_int
    else Except.ok ""
  let video_quality ←
    if jcontains preset "VideoQualitySlider" then
      (jget_int ((preset.getField "VideoQualitySlider").getD (JVal.obj []))).map cpp_to_string_double
    else Except.ok "0"
  let video_quality_type ←
    if jcontains preset "VideoQualityType" then
      match (preset.getField "VideoQualityType").getD (JVal.obj []) with
      | JVal.str s => Except.ok s
      | v => (jget_int v).map cpp_to_string_int
    else Except.ok ""
  let video_multipass ← jvalue_bool preset "VideoMultiPass" false
  let picture_width ←
    if jcontains preset "PictureWidth" then
      (jget_int ((preset.getField "PictureWidth").getD (JVal.obj []))).map cpp_to_string_int
    else Except.ok "0"
  let picture_height ←
    if jcontains preset "PictureHeight" then
      (jget_int ((preset.getField "PictureHeight").getD (JVal.obj []))).map cpp_to_string_int
    else Except.ok "0"
  let audio_encoder ← jvalue_str audio_settings "AudioEncoder" ""
  let audio_bitrate ←
    if jcontains audio_settings "AudioBitrate" then
      (jget_int ((audio_settings.getField "AudioBitrate").getD (JVal.obj []))).map cpp_to_string_int
    else Except.ok "0"
  let audio_mixdown ← jvalue_str audio_settings "AudioMixdown" ""
  let container ← jvalue_str preset "FileFormat" ""
  return {
    preset_name := preset_name
    video_encoder := video_encoder
    video_bitrate := video_bitrate
    video_preset := video_preset
    video_profile := video_profile
    video_framerate := video_framerate
    video_quality := video_quality
    video_quality_type := video_quality_type
    video_multipass := video_multipass
    picture_width := picture_width
    picture_height := picture_height
    audio_encoder := audio_encoder
    audio_bitrate := audio_bitrate
    audio_mixdown := audio_mixdown
    container := container }

/-- Translation of convert_to_ffmpeg_params (source lines 221-278): a pure
mapping from Settings to FFmpegParams. -/
def convert_to_ffmpeg_params (settings : Settings) : FFmpegParams :=
  { vcodec :=
      if settings.video_encoder = "x265" then "libx265"
      else if settings.video_encoder = "x264" then "libx264"
      else settings.video_encoder
    acodec :=
      if "copy:".data.isPrefixOf settings.audio_encoder.data then "-c:a copy"
      else "-c:a aac -b:a " ++ settings.audio_bitrate ++ "k"
    audio_channels :=
      if settings.audio_mixdown = "5point1" then "-ac 6"
      else if settings.audio_mixdown = "stereo" then "-ac 2"
      else if settings.audio_mixdown = "mono" then "-ac 1"
      else ""
    quality :=
      if settings.video_quality_type = "2" then "-crf " ++ settings.video_quality
      else "-b:v " ++ settings.video_bitrate ++ "k"
    format :=
      if settings.container = "av_mkv" then "mkv"
      else if settings.container = "av_mp4" then "mp4"
      else "mkv"
    preset := settings.video_preset
    profile := settings.video_profile
    framerate := settings.video_framerate
    resolution := settings.picture_width ++ "x" ++ settings.picture_height
    multipass := settings.video_multipass
    preset_name := settings.preset_name }

/-- Character scan of the getline loop of split_string: accumulate until the
delimiter, pushing only non-empty tokens. -/
def split_string_aux (delimiter : Char) : List Char → List Char → List String
  | [], acc => if acc = [] then [] else [String.mk acc]
  | c :: cs, acc =>
    if c = delimiter then
      (if acc = [] then split_string_aux delimiter cs []
       else String.mk acc :: split_string_aux delimiter cs [])
    else split_string_aux delimiter cs (acc ++ [c])

/-- Translation of split_string (source lines 378-388): split on a delimiter,
dropping empty tokens, exactly as the getline loop does. -/
def split_string (s : String) (delimiter : Char) : List String :=
  split_string_aux delimiter s.data []

/-- Translation of join_string (source lines 390-399): interleave the
delimiter between consecutive elements. -/
def join_string : List String → String → String
  | [], _ => ""
  | [x], _ => x
  | x :: y :: rest, d => x ++ d ++ join_string (y :: rest) d

/-- Translation of escape_string (source lines 401-406): wrap in double
quotes when the argument holds a space. -/
def escape_string (s : String) : String :=
  if ' ' ∈ s.data then "\"" ++ s ++ "\"" else s

/-- Translation of get_null_device (source lines 370-376), POSIX branch.
The Windows branch returns NUL instead. -/
def get_null_device : String := "/dev/null"

/-- Boolean substring test over character lists, modelling
std::string::find(pat) != npos. -/
def has_substring (pat : List Char) : List Char → Bool
  | [] => pat.isPrefixOf []
  | c :: cs => pat.isPrefixOf (c :: cs) || has_substring pat cs

/-- Translation of build_ffmpeg_command (source lines 408-475).  Each let
step mirrors one push_back block of the source, in source order. -/
def build_ffmpeg_command (input_file output_file : String) (ffmpeg_params : FFmpegParams)
    (analyze_duration probe_size : Int) (verbose : Bool) : List String :=
  let cmd : List String := ["ffmpeg"]
  let cmd := cmd ++ ["-analyzeduration", toString analyze_duration]
  let cmd := cmd ++ ["-probesize", toString probe_size]
  let cmd := cmd ++ ["-i", input_file]
  let cmd := cmd ++ ["-c:v", ffmpeg_params.vcodec]
  let cmd := cmd ++ split_string ffmpeg_params.quality ' '
  let cmd := cmd ++ ["-preset", ffmpeg_params.preset]
  let cmd :=
    if ffmpeg_params.framerate ≠ "auto" ∧ ffmpeg_params.framerate ≠ "" then
      cmd ++ ["-r", ffmpeg_params.framerate]
    else cmd
  let cmd := cmd ++ ["-s", ffmpeg_params.resolution]
  let cmd := cmd ++ split_string ffmpeg_params.acodec ' '
  let cmd :=
    if ffmpeg_params.audio_channels ≠ "" then
      cmd ++ split_string ffmpeg_params.audio_channels ' '
    else cmd
  let cmd :=
    if ffmpeg_params.profile ≠ "auto" ∧ ffmpeg_params.profile ≠ "" then
      cmd ++ ["-profile:v", ffmpeg_params.profile]
    else cmd
  let cmd := if verbose then cmd else cmd ++ ["-v", "error", "-stats"]
  let cmd := cmd ++ ["-map", "0"]
  cmd ++ [output_file]

/-- Translation of build_multipass_commands (source lines 477-512): pass 1
targets the null device, drops the trailing output argument and appends the
pass-1 and null-format flags; pass 2 targets the real output and appends the
pass-2 flag. -/
def build_multipass_commands (input_file output_file : String) (ffmpeg_params : FFmpegParams)
    (analyze_duration probe_size : Int) (verbose : Bool) : List (List String) :=
  let null_device := get_null_device
  let pass1_cmd := build_ffmpeg_command input_file null_device ffmpeg_params
    analyze_duration probe_size verbose
  let pass1_cmd := pass1_cmd.dropLast
  let pass1_cmd := pass1_cmd ++ ["-pass", "1", "-f", "null", null_device]
  let pass2_cmd := build_ffmpeg_command input_file output_file ffmpeg_params
    analyze_duration probe_size verbose
  let pass2_cmd := pass2_cmd ++ ["-pass", "2"]
  [pass1_cmd, pass2_cmd]

/-- Effective-multipass decision of process_file (source line 667):
multipass is honored only when the flag is set and the quality fragment does
not contain -crf. -/
def is_multipass (ffmpeg_params : FFmpegParams) : Bool :=
  ffmpeg_params.multipass && !(has_substring "-crf".data ffmpeg_params.quality.data)

/-- Command sequence built by process_file for one file (source lines
666-698): two invocations under effective multipass, one otherwise. -/
def built_commands (input_file output_file : String) (ffmpeg_params : FFmpegParams)
    (analyze_duration probe_size : Int) (verbose : Bool) : List (List String) :=
  if is_multipass ffmpeg_params then
    build_multipass_commands input_file output_file ffmpeg_params
      analyze_duration probe_size verbose
  else
    [build_ffmpeg_command input_file output_file ffmpeg_params
      analyze_duration probe_size verbose]

/-- Rendering of one invocation to a display/execution string as process_file
does for the preview (source lines 679-698): escape each argument, join with
single spaces. -/
def render_command (cmd : List String) : String :=
  join_string (cmd.map escape_string) " "

/-- Filesystem facts consulted by check_file_access, as an oracle record.
file_perms is the POSIX permission bitmask of the existing output file;
fs::perms::none of the source is the value 0. -/
structure FSAccess where
  dir_is_directory : Bool
  file_exists : Bool
  file_perms : Nat
  dir_writable : Bool
deriving DecidableEq

/-- Translation of check_file_access (source lines 338-368) over the oracle:
fail if the output directory is not a directory, fail if the output file
exists with an all-empty permission set, then fail unless the directory
write test succeeds. -/
def check_file_access (a : FSAccess) : Bool :=
  if !a.dir_is_directory then false
  else if a.file_exists && a.file_perms == 0 then false
  else a.dir_writable

/-- Filesystem facts consulted by process_file before dispatch. -/
structure FSOracle where
  subdir_exists : Bool
  mkdir_ok : Bool
  access : FSAccess
deriving DecidableEq

/-- Outcome of processing one file: the invocations dispatched to the
external transcoder, in order, and the return value of process_file
(0 success, 1 failure, as counted by main). -/
structure ProcOutcome where
  dispatched : List (List String)
  retcode : Nat
deriving DecidableEq

/-- The execute loop of process_file (source lines 716-736): run the
commands in order, stopping at the first nonzero exit code; the pair holds
the dispatched commands and the final result code. -/
def run_commands_sequentially (run : List String → Int) :
    List (List String) → List (List String) × Int
  | [] => ([], 0)
  | c :: cs =>
    let code := run c
    if code ≠ 0 then ([c], code)
    else
      let rest := run_commands_sequentially run cs
      (c :: rest.1, rest.2)

/-- Translation of the dispatch portion of process_file (source lines
643-767), after output-path resolution: directory creation, the execute-mode
access gate, then preview or sequential execution.  The run oracle stands
for execute_command; the post-success rename path does not change the
return value and carries no dispatch, so it is not represented. -/
def process_file (input_file output_file : String) (ffmpeg_params : FFmpegParams)
    (execute dry_run : Bool) (analyze_duration probe_size : Int) (verbose : Bool)
    (fso : FSOracle) (run : List String → Int) : ProcOutcome :=
  if !fso.subdir_exists && !dry_run && !fso.mkdir_ok then ⟨[], 1⟩
  else if !dry_run && execute && !check_file_access fso.access then ⟨[], 1⟩
  else if dry_run then ⟨[], 0⟩
  else if execute then
    let r := run_commands_sequentially run
      (built_commands input_file output_file ffmpeg_params analyze_duration probe_size verbose)
    ⟨r.1, if r.2 = 0 then 0 else 1⟩
  else ⟨[], 0⟩

/-- Replace the first occurrence of pat in s, scanning left to right;
identity when pat does not occur.  Models the find-then-replace of main
(source lines 924-928). -/
def replace_first (pat rep : List Char) : List Char → List Char
  | [] => if pat.isPrefixOf ([] : List Char) then rep else []
  | c :: cs =>
    if pat.isPrefixOf (c :: cs) then rep ++ (c :: cs).drop pat.length
    else c :: replace_first pat rep cs

/-- Index of the first occurrence of pat, scanning left to right. -/
def find_sub (pat : List Char) : List Char → Option Nat
  | [] => if pat.isPrefixOf ([] : List Char) then some 0 else none
  | c :: cs =>
    if pat.isPrefixOf (c :: cs) then some 0
    else (find_sub pat cs).map (fun i => i + 1)

/-- Translation of the doubled-converted fix-up of main (source lines
920-928): when the output directory contains converted/converted, its first
occurrence is replaced by converted. -/
def fix_output_dir (s : String) : String :=
  if has_substring "converted/converted".data s.data then
    String.mk (replace_first "converted/converted".data "converted".data s.data)
  else s

/-- Output-directory resolution of main (source lines 914-928): default to
input_dir/converted when no directory was given, then apply the
doubled-converted fix-up; the result is the directory used for creation and
for every processed file. -/
def resolve_output_dir (input_dir : String) (output_dir_opt : Option String) : String :=
  fix_output_dir
    (match output_dir_opt with
     | some d => d
     | none => input_dir ++ "/converted")

/-- Modelled from the spec: re-tokenizing a rendered command string on
spaces while respecting double-quoted segments (no such parser exists in
the source; the spec round-trip property defines it in words).  The flag
records whether the scanner is inside a quoted segment; acc is the current
token. -/
def tok : Bool → List Char → List Char → List String
  | _, [], acc => if acc = [] then [] else [String.mk acc]
  | true, c :: cs, acc =>
    if c = '"' then tok false cs acc else tok true cs (acc ++ [c])
  | false, c :: cs, acc =>
    if c = '"' then tok true cs acc
    else if c = ' ' then
      (if acc = [] then tok false cs [] else String.mk acc :: tok false cs [])
    else tok false cs (acc ++ [c])

/-- Modelled from the spec: tokenizer entry point over a rendered string. -/
def spec_tokenize (s : String) : List String :=
  tok false s.data []

/-- Sample encode parameters with a bitrate quality form and the multipass
flag set, exercising the two-pass path. -/
def sample_params : FFmpegParams :=
  { vcodec := "libx264", acodec := "-c:a aac -b:a 160k", audio_channels := "-ac 2",
    quality := "-b:v 1000k", format := "mkv", preset := "fast", profile := "main",
    framerate := "24", resolution := "1280x720", multipass := true,
    preset_name := "Sample" }

/-- Parameters whose quality fragment is the constant-quality form while the
multipass flag is set. -/
def c2_params : FFmpegParams := { sample_params with quality := "-crf 21" }

/-- Parameters with an empty speed-preset value, producing an empty argument
in the built command. -/
def c6_params : FFmpegParams := { sample_params with preset := "" }

/-- Parameters with an empty speed preset, framerate auto and empty profile. -/
def c10_params : FFmpegParams :=
  { sample_params with preset := "", framerate := "auto", profile := "" }

/-- Preset document of claim C1: encoder x265, quality-mode 2, quality
slider 20, container av_mkv. -/
def c1_doc : JVal :=
  .obj [("PresetList", .arr [.obj [
    ("PresetName", .str "Test"), ("VideoEncoder", .str "x265"),
    ("VideoQualityType", .str "2"), ("VideoQualitySlider", .num 20),
    ("FileFormat", .str "av_mkv")]])]

/-- Single-pass command produced by the extract, translate, build pipeline
on the C1 document, with the default analyze and probe tuning of main. -/
def c1_command : List String :=
  match extract_preset_settings c1_doc with
  | .ok s =>
    build_ffmpeg_command "clip.mp4" "converted/clip.mkv" (convert_to_ffmpeg_params s)
      100000000 100000000 false
  | .error _ => []

/-- Preset document whose video bitrate is a numeric string. -/
def c8_doc : JVal :=
  .obj [("PresetList", .arr [.obj [("VideoAvgBitrate", .str "3000")]])]

/-- Preset document whose video bitrate is a native number. -/
def c8_doc_num : JVal :=
  .obj [("PresetList", .arr [.obj [("VideoAvgBitrate", .num 3000)]])]

/-- Filesystem state whose output file exists read-only (mode 444 octal,
which is 292: read bits set, no write bits) in a writable directory. -/
def c7_readonly_access : FSAccess :=
  { dir_is_directory := true, file_exists := true, file_perms := 292,
    dir_writable := true }

/-- Filesystem state whose output directory is missing. -/
def c7_missing_dir_access : FSAccess :=
  { dir_is_directory := false, file_exists := false, file_perms := 0,
    dir_writable := true }

/-- Pass-1 invocation of the sample multipass job at concrete inputs. -/
def c5_pass1 : List String :=
  (build_ffmpeg_command "a.mp4" get_null_device sample_params 1 1 false).dropLast ++
    ["-pass", "1", "-f", "null", get_null_device]

/-- Pass-2 invocation of the sample multipass job at concrete inputs. -/
def c5_pass2 : List String :=
  build_ffmpeg_command "a.mp4" "b.mkv" sample_params 1 1 false ++ ["-pass", "2"]

lemma string_data_append (a b : String) : (a ++ b).data = a.data ++ b.data := by
  cases a; cases b; rfl

lemma string_mk_data (s : String) : String.mk s.data = s := by
  cases s; rfl

/-- The built single-pass invocation, flattened into the fixed segment
concatenation of the specification. -/
lemma build_ffmpeg_command_flat (i o : String) (p : FFmpegParams) (ad ps : Int) (v : Bool) :
    build_ffmpeg_command i o p ad ps v =
      ["ffmpeg", "-analyzeduration", toString ad, "-probesize", toString ps, "-i", i,
        "-c:v", p.vcodec] ++
      split_string p.quality ' ' ++ ["-preset", p.preset] ++
      (if p.framerate ≠ "auto" ∧ p.framerate ≠ "" then ["-r", p.framerate] else []) ++
      ["-s", p.resolution] ++ split_string p.acodec ' ' ++
      (if p.audio_channels ≠ "" then split_string p.audio_channels ' ' else []) ++
      (if p.profile ≠ "auto" ∧ p.profile ≠ "" then ["-profile:v", p.profile] else []) ++
      (if v = false then ["-v", "error", "-stats"] else []) ++
      ["-map", "0"] ++ [o] := by
  cases v <;> simp only [build_ffmpeg_command] <;> split_ifs <;>
    simp_all [List.append_assoc]

lemma build_ffmpeg_command_dropLast (i o : String) (p : FFmpegParams)
    (ad ps : Int) (v : Bool) :
    (build_ffmpeg_command i o p ad ps v).dropLast ++ [o] =
      build_ffmpeg_command i o p ad ps v := by
  rw [build_ffmpeg_command_flat, List.dropLast_concat]

lemma build_ffmpeg_command_dropLast_output_indep (i o o2 : String) (p : FFmpegParams)
    (ad ps : Int) (v : Bool) :
    (build_ffmpeg_command i o p ad ps v).dropLast =
      (build_ffmpeg_command i o2 p ad ps v).dropLast := by
  rw [build_ffmpeg_command_flat, build_ffmpeg_command_flat,
    List.dropLast_concat, List.dropLast_concat]

/-- C3.  For every input path, output path, parameters, analyze-duration,
probe-size and verbose flag, build_ffmpeg_command returns exactly the fixed
argument sequence of the specification: program name, analyze-duration,
probe-size, input, video codec, quality fragment split on spaces, speed
preset, optional framerate (omitted when empty or auto), resolution, audio
codec fragment split, audio channel fragment split when non-empty, optional
profile (omitted when empty or auto), quiet-mode flags only when verbose is
false, the map-all flag, and the output path, in this order. -/
theorem c3_single_command_layout (i o : String) (p : FFmpegParams) (ad ps : Int) (v : Bool) :
    build_ffmpeg_command i o p ad ps v =
      ["ffmpeg", "-analyzeduration", toString ad, "-probesize", toString ps, "-i", i,
        "-c:v", p.vcodec] ++
      split_string p.quality ' ' ++ ["-preset", p.preset] ++
      (if p.framerate ≠ "auto" ∧ p.framerate ≠ "" then ["-r", p.framerate] else []) ++
      ["-s", p.resolution] ++ split_string p.acodec ' ' ++
      (if p.audio_channels ≠ "" then split_string p.audio_channels ' ' else []) ++
      (if p.profile ≠ "auto" ∧ p.profile ≠ "" then ["-profile:v", p.profile] else []) ++
      (if v = false then ["-v", "error", "-stats"] else []) ++
      ["-map", "0", o] := by
  rw [build_ffmpeg_command_flat]
  simp [List.append_assoc]

/-- C4.  build_multipass_commands returns exactly two invocations: the first
is the single-pass invocation targeting the null device with its final
output argument removed and the pass-1 and null-format arguments appended;
the second is the single-pass invocation targeting the real output with the
pass-2 arguments appended.  The removed final argument of the first template
is indeed its output argument (the null device). -/
theorem c4_multipass_structure (i o : String) (p : FFmpegParams) (ad ps : Int) (v : Bool) :
    build_multipass_commands i o p ad ps v =
      [(build_ffmpeg_command i get_null_device p ad ps v).dropLast ++
        ["-pass", "1", "-f", "null", get_null_device],
       build_ffmpeg_command i o p ad ps v ++ ["-pass", "2"]] ∧
    (build_ffmpeg_command i get_null_device p ad ps v).getLast? = some get_null_device := by
  constructor
  · rfl
  · rw [build_ffmpeg_command_flat]
    exact List.getLast?_concat _

lemma has_substring_crf_of_crf_quality (q : String) :
    has_substring "-crf".data (("-crf " ++ q)).data = true := by
  cases q
  rfl

/-- C2.  The built command sequence has two invocations exactly when the
multipass flag is set and the quality fragment does not contain -crf; when
the quality fragment is the constant-quality form, exactly one invocation is
produced regardless of the multipass flag. -/
theorem c2_effective_multipass_iff (i o : String) (p : FFmpegParams) (ad ps : Int) (v : Bool) :
    ((built_commands i o p ad ps v).length = 2 ↔
      p.multipass = true ∧ has_substring "-crf".data p.quality.data = false) ∧
    (∀ q : String, p.quality = "-crf " ++ q →
      (built_commands i o p ad ps v).length = 1) := by
  constructor
  · unfold built_commands is_multipass
    cases hm : p.multipass <;>
      cases hq : has_substring "-crf".data p.quality.data <;>
        simp [hm, hq, build_multipass_commands]
  · intro q hq
    have hsub : has_substring "-crf".data p.quality.data = true := by
      rw [hq]
      exact has_substring_crf_of_crf_quality q
    unfold built_commands is_multipass
    simp [hsub]

/-- Witness for C2 at concrete inputs: parameters with the constant-quality
fragment -crf 21 and the multipass flag set yield a single invocation. -/
theorem c2_effective_multipass_iff_witness :
    (c2_params.quality = "-crf " ++ "21" ∧ c2_params.multipass = true) ∧
    (built_commands "a.mp4" "b.mkv" c2_params 1 1 false).length = 1 :=
  ⟨⟨by decide, by decide⟩,
    (c2_effective_multipass_iff "a.mp4" "b.mkv" c2_params 1 1 false).2 "21" (by decide)⟩

/-- C10.  The -preset flag and the speed-preset value are always emitted,
even when the value is the empty string (an empty argument), while the
framerate and profile segments are omitted entirely whenever their values
are empty or auto. -/
theorem c10_preset_flag_always_optional_flags_omitted (i o : String) (p : FFmpegParams)
    (ad ps : Int) (v : Bool)
    (hf : p.framerate = "" ∨ p.framerate = "auto")
    (hp : p.profile = "" ∨ p.profile = "auto") :
    ["-preset", p.preset] <:+: build_ffmpeg_command i o p ad ps v ∧
    build_ffmpeg_command i o p ad ps v =
      ["ffmpeg", "-analyzeduration", toString ad, "-probesize", toString ps, "-i", i,
        "-c:v", p.vcodec] ++
      split_string p.quality ' ' ++ ["-preset", p.preset] ++
      ["-s", p.resolution] ++ split_string p.acodec ' ' ++
      (if p.audio_channels ≠ "" then split_string p.audio_channels ' ' else []) ++
      (if v = false then ["-v", "error", "-stats"] else []) ++
      ["-map", "0", o] := by
  have hf2 : ¬(p.framerate ≠ "auto" ∧ p.framerate ≠ "") := by
    rcases hf with h | h <;> simp [h]
  have hp2 : ¬(p.profile ≠ "auto" ∧ p.profile ≠ "") := by
    rcases hp with h | h <;> simp [h]
  have heq := build_ffmpeg_command_flat i o p ad ps v
  rw [if_neg hf2, if_neg hp2] at heq
  constructor
  · rw [heq]
    refine ⟨["ffmpeg", "-analyzeduration", toString ad, "-probesize", toString ps, "-i", i,
        "-c:v", p.vcodec] ++ split_string p.quality ' ',
      ["-s", p.resolution] ++ split_string p.acodec ' ' ++
        (if p.audio_channels ≠ "" then split_string p.audio_channels ' ' else []) ++
        (if v = false then ["-v", "error", "-stats"] else []) ++
        ["-map", "0"] ++ [o], ?_⟩
    simp [List.append_assoc]
  · rw [heq]
    simp [List.append_assoc]

/-- Witness for C10 at concrete inputs: parameters with an empty speed
preset, framerate auto and empty profile still carry the -preset flag
followed by an empty argument. -/
theorem c10_preset_flag_always_optional_flags_omitted_witness :
    (c10_params.framerate = "" ∨ c10_params.framerate = "auto") ∧
    ["-preset", ""] <:+: build_ffmpeg_command "in.mp4" "out.mkv" c10_params 1 1 false :=
  ⟨Or.inr (by decide),
    (c10_preset_flag_always_optional_flags_omitted "in.mp4" "out.mkv" c10_params 1 1 false
      (Or.inr (by decide)) (Or.inl (by decide))).1⟩

lemma build_ffmpeg_command_length_output_indep (i o o2 : String) (p : FFmpegParams)
    (ad ps : Int) (v : Bool) :
    (build_ffmpeg_command i o p ad ps v).length =
      (build_ffmpeg_command i o2 p ad ps v).length := by
  rw [← build_ffmpeg_command_dropLast i o p ad ps v,
    ← build_ffmpeg_command_dropLast i o2 p ad ps v,
    build_ffmpeg_command_dropLast_output_indep i o o2 p ad ps v]
  simp [List.length_append]

lemma pass1_cmd_ne_pass2_cmd (i o : String) (p : FFmpegParams) (ad ps : Int) (v : Bool) :
    (build_ffmpeg_command i get_null_device p ad ps v).dropLast ++
        ["-pass", "1", "-f", "null", get_null_device] ≠
      build_ffmpeg_command i o p ad ps v ++ ["-pass", "2"] := by
  intro h
  have hlen := congrArg List.length h
  have hnd := build_ffmpeg_command_dropLast i get_null_device p ad ps v
  have hndlen := congrArg List.length hnd
  have hio := build_ffmpeg_command_length_output_indep i get_null_device o p ad ps v
  simp [List.length_append] at hlen hndlen
  omega

/-- C5.  In execute mode with effective multipass, the pass-2 invocation is
dispatched only if the pass-1 invocation returned exit code 0; when pass 1
returns nonzero, the file fails (return code 1) and pass 2 is never
dispatched. -/
theorem c5_pass_ordering (i o : String) (p : FFmpegParams) (ad ps : Int) (v : Bool)
    (fso : FSOracle) (run : List String → Int) (c1 c2 : List String)
    (hb : build_multipass_commands i o p ad ps v = [c1, c2])
    (hm : is_multipass p = true) (hs : fso.subdir_exists = true)
    (ha : check_file_access fso.access = true) :
    (c2 ∈ (process_file i o p true false ad ps v fso run).dispatched → run c1 = 0) ∧
    (run c1 ≠ 0 →
      (process_file i o p true false ad ps v fso run).retcode = 1 ∧
      c2 ∉ (process_file i o p true false ad ps v fso run).dispatched) := by
  have hne : c1 ≠ c2 := by
    have h1 : c1 = (build_ffmpeg_command i get_null_device p ad ps v).dropLast ++
        ["-pass", "1", "-f", "null", get_null_device] := by
      have := hb.symm
      rw [build_multipass_commands] at hb
      simpa using (List.cons.inj hb).1.symm
    have h2 : c2 = build_ffmpeg_command i o p ad ps v ++ ["-pass", "2"] := by
      rw [build_multipass_commands] at hb
      have := (List.cons.inj hb).2
      simpa using (List.cons.inj this).1.symm
    rw [h1, h2]
    exact pass1_cmd_ne_pass2_cmd i o p ad ps v
  have hpf : process_file i o p true false ad ps v fso run =
      ⟨(run_commands_sequentially run [c1, c2]).1,
        if (run_commands_sequentially run [c1, c2]).2 = 0 then 0 else 1⟩ := by
    simp [process_file, hs, ha, built_commands, hm, hb]
  by_cases hr : run c1 = 0
  · constructor
    · intro _
      exact hr
    · intro hcontra
      exact absurd hr hcontra
  · have hrun : run_commands_sequentially run [c1, c2] = ([c1], run c1) := by
      simp [run_commands_sequentially, hr]
    constructor
    · intro hmem
      rw [hpf, hrun] at hmem
      simp at hmem
      exact absurd hmem.symm hne
    · intro _
      rw [hpf, hrun]
      constructor
      · simp [hr]
      · simp
        intro hc
        exact hne hc.symm

/-- Witness for C5 at concrete inputs: with a run oracle that always fails,
processing the sample multipass parameters dispatches only pass 1 and the
file fails. -/
theorem c5_pass_ordering_witness :
    (is_multipass sample_params = true ∧
      check_file_access (FSOracle.mk true true ⟨true, false, 0, true⟩).access = true) ∧
    (c5_pass2 ∈
        (process_file "a.mp4" "b.mkv" sample_params true false 1 1 false
          ⟨true, true, ⟨true, false, 0, true⟩⟩ (fun _ => 1)).dispatched →
      (fun _ => (1 : Int)) c5_pass1 = 0) ∧
    ((fun _ => (1 : Int)) c5_pass1 ≠ 0 →
      (process_file "a.mp4" "b.mkv" sample_params true false 1 1 false
        ⟨true, true, ⟨true, false, 0, true⟩⟩ (fun _ => 1)).retcode = 1 ∧
      c5_pass2 ∉
        (process_file "a.mp4" "b.mkv" sample_params true false 1 1 false
          ⟨true, true, ⟨true, false, 0, true⟩⟩ (fun _ => 1)).dispatched) :=
  ⟨⟨by decide, by decide⟩,
    c5_pass_ordering "a.mp4" "b.mkv" sample_params 1 1 false
      ⟨true, true, ⟨true, false, 0, true⟩⟩ (fun _ => 1)
      c5_pass1 c5_pass2 rfl (by decide) rfl (by decide)⟩

/-- C7 (amended).  In execute mode the access gate runs before any dispatch:
when check_file_access fails, the file is counted as failed and no
invocation is dispatched.  The gate fails exactly when the output directory
is not a directory, or the existing output file has an all-empty permission
set (fs::perms::none), or the directory write test fails; a merely read-only
existing file passes the gate. -/
theorem c7_access_gate_amended (i o : String) (p : FFmpegParams) (ad ps : Int) (v : Bool)
    (fso : FSOracle) (run : List String → Int)
    (hs : fso.subdir_exists = true)
    (ha : check_file_access fso.access = false) :
    process_file i o p true false ad ps v fso run = ⟨[], 1⟩ ∧
    (check_file_access fso.access = false ↔
      (fso.access.dir_is_directory = false ∨
        (fso.access.file_exists = true ∧ fso.access.file_perms = 0) ∨
        fso.access.dir_writable = false)) := by
  constructor
  · simp [process_file, hs, ha]
  · obtain ⟨sd, mk, ⟨d, e, pm, w⟩⟩ := fso
    by_cases hp : pm = 0 <;>
      cases d <;> cases e <;> cases w <;>
        simp_all [check_file_access]

/-- Witness for C7 at concrete inputs: a missing output directory makes the
gate fail, the file is counted failed and nothing is dispatched. -/
theorem c7_access_gate_amended_witness :
    check_file_access c7_missing_dir_access = false ∧
    (process_file "in.mp4" "out.mkv" sample_params true false 1 1 false
        ⟨true, true, c7_missing_dir_access⟩ (fun _ => 0) = ⟨[], 1⟩ ∧
      (check_file_access c7_missing_dir_access = false ↔
        (c7_missing_dir_access.dir_is_directory = false ∨
          (c7_missing_dir_access.file_exists = true ∧
            c7_missing_dir_access.file_perms = 0) ∨
          c7_missing_dir_access.dir_writable = false))) :=
  ⟨by decide,
    c7_access_gate_amended "in.mp4" "out.mkv" sample_params 1 1 false
      ⟨true, true, c7_missing_dir_access⟩ (fun _ => 0) rfl (by decide)⟩

/-- C7 counterexample.  An output file that exists read-only (mode 444
octal, permission mask 292: read bits only, no write bits 146) passes
check_file_access, the transcode is dispatched and the file is not counted
failed, refuting the claim that an existing read-only output file is
skipped without any invocation. -/
theorem c7_access_gate_counterexample :
    c7_readonly_access.file_exists = true ∧
    c7_readonly_access.file_perms ≠ 0 ∧
    c7_readonly_access.file_perms &&& 146 = 0 ∧
    check_file_access c7_readonly_access = true ∧
    (process_file "in.mp4" "out.mkv" sample_params true false 1 1 false
        ⟨true, true, c7_readonly_access⟩ (fun _ => 0)).dispatched ≠ [] ∧
    (process_file "in.mp4" "out.mkv" sample_params true false 1 1 false
        ⟨true, true, c7_readonly_access⟩ (fun _ => 0)).retcode = 0 := by
  refine ⟨by decide, by decide, by decide, by decide, by decide, by decide⟩

/-- C1 counterexample.  On the C1 preset document (encoder x265,
quality-mode 2, quality slider 20, container av_mkv) the pipeline built
command carries the constant-quality value as the argument 20.000000
(std::to_string of the double 20), so the command does not contain an
argument 20 and the argument pair -crf 20 never occurs. -/
theorem c1_crf_argument_counterexample :
    c1_command ≠ [] ∧ "-crf" ∈ c1_command ∧ "20" ∉ c1_command ∧
    ¬ ["-crf", "20"] <:+: c1_command := by
  refine ⟨by decide, by decide, by decide, by decide⟩

/-- C1 (amended).  On the C1 preset document, the pipeline extract,
translate, buildSingle yields the consecutive arguments -c:v libx265
-crf 20.000000, the translated output format is mkv, and the rendered
dry-run command string therefore contains -c:v libx265 -crf 20 as a
substring. -/
theorem c1_pipeline_amended :
    ["-c:v", "libx265", "-crf", "20.000000"] <:+: c1_command ∧
    (extract_preset_settings c1_doc).map
      (fun s => (convert_to_ffmpeg_params s).format) = Except.ok "mkv" ∧
    has_substring "-c:v libx265 -crf 20".data (render_command c1_command).data = true := by
  refine ⟨by decide, rfl, by decide⟩

/-- C8.  A native-number video bitrate is coerced to its canonical string
form, but the same field given as a numeric string makes extraction throw
nlohmann type_error.302 (get of an int on a string value), contradicting
the claimed string coercion: the code contradicts its own comment that
values could be numbers or strings and are handled safely. -/
theorem c8_numeric_string_extraction_bug :
    (extract_preset_settings c8_doc_num).map (fun s => s.video_bitrate) =
      Except.ok "3000" ∧
    extract_preset_settings c8_doc = Except.error "type_error.302" := by
  exact ⟨rfl, rfl⟩

lemma find_sub_isSome_eq_has_substring (pat : List Char) (s : List Char) :
    (find_sub pat s).isSome = has_substring pat s := by
  induction s with
  | nil => cases hb : List.isPrefixOf pat [] <;> simp [find_sub, has_substring, hb]
  | cons c cs ih =>
    cases hb : List.isPrefixOf pat (c :: cs) <;>
      simp [find_sub, has_substring, hb, ih]

lemma replace_first_eq_find_sub (pat rep : List Char) (s : List Char) :
    replace_first pat rep s =
      match find_sub pat s with
      | none => s
      | some i => s.take i ++ rep ++ s.drop (i + pat.length) := by
  induction s with
  | nil =>
    unfold replace_first find_sub
    split_ifs with hp
    · simp
    · rfl
  | cons c cs ih =>
    unfold replace_first find_sub
    split_ifs with hp
    · simp
    · cases hf : find_sub pat cs with
      | none =>
        rw [hf] at ih
        have ih2 : replace_first pat rep cs = cs := ih
        show c :: replace_first pat rep cs = c :: cs
        rw [ih2]
      | some i =>
        rw [hf] at ih
        have ih2 : replace_first pat rep cs =
            List.take i cs ++ rep ++ List.drop (i + pat.length) cs := ih
        show c :: replace_first pat rep cs =
          List.take (i + 1) (c :: cs) ++ rep ++ List.drop (i + 1 + pat.length) (c :: cs)
        rw [ih2]
        simp [List.take_succ_cons, List.drop_succ_cons, Nat.add_right_comm]

/-- C9 counterexample.  For the resolved output directory
media/converted/converted/converted, the fix-up of main collapses only the
first occurrence and the directory actually used still contains the doubled
converted/converted segment, refuting the claim that output is never placed
under such a path. -/
theorem c9_converted_rewrite_counterexample :
    resolve_output_dir "media" (some "media/converted/converted/converted") =
      "media/converted/converted" ∧
    has_substring "converted/converted".data
      (resolve_output_dir "media" (some "media/converted/converted/converted")).data =
      true := by
  refine ⟨by decide, by decide⟩

/-- C9 (amended).  Before any directory creation or processing, main
resolves the output directory (defaulting to input_dir/converted) and
rewrites the first occurrence of converted/converted in it to a single
converted, leaving the string unchanged when no occurrence exists; the
result may still contain converted/converted when occurrences overlap or
repeat. -/
theorem c9_converted_rewrite_amended :
    (∀ s : String,
      fix_output_dir s =
        String.mk
          (match find_sub "converted/converted".data s.data with
           | none => s.data
           | some i =>
             s.data.take i ++ "converted".data ++
               s.data.drop (i + ("converted/converted".data).length))) ∧
    (∀ (input_dir : String) (od : Option String),
      resolve_output_dir input_dir od =
        fix_output_dir (od.getD (input_dir ++ "/converted"))) := by
  constructor
  · intro s
    unfold fix_output_dir
    cases hf : find_sub "converted/converted".data s.data with
    | none =>
      have hsub : has_substring "converted/converted".data s.data = false := by
        rw [← find_sub_isSome_eq_has_substring, hf]
        rfl
      rw [hsub]
      simp
    | some i =>
      have hsub : has_substring "converted/converted".data s.data = true := by
        rw [← find_sub_isSome_eq_has_substring, hf]
        rfl
      rw [hsub, if_pos rfl]
      exact congrArg String.mk (by rw [replace_first_eq_find_sub, hf])
  · intro input_dir od
    cases od <;> rfl

lemma tok_plain_chars (t : List Char) (h : ∀ c ∈ t, c ≠ '"' ∧ c ≠ ' ') :
    ∀ (cs acc : List Char), tok false (t ++ cs) acc = tok false cs (acc ++ t) := by
  induction t with
  | nil => intro cs acc; simp
  | cons c t ih =>
    intro cs acc
    have hc := h c (List.mem_cons_self c t)
    have ht : ∀ x ∈ t, x ≠ '"' ∧ x ≠ ' ' := fun x hx => h x (List.mem_cons_of_mem c hx)
    rw [List.cons_append]
    rw [show tok false (c :: (t ++ cs)) acc = tok false (t ++ cs) (acc ++ [c]) from by
      simp [tok, hc.1, hc.2]]
    rw [ih ht cs (acc ++ [c])]
    simp

lemma tok_quoted_chars (t : List Char) (h : ∀ c ∈ t, c ≠ '"') :
    ∀ (cs acc : List Char), tok true (t ++ cs) acc = tok true cs (acc ++ t) := by
  induction t with
  | nil => intro cs acc; simp
  | cons c t ih =>
    intro cs acc
    have hc := h c (List.mem_cons_self c t)
    have ht : ∀ x ∈ t, x ≠ '"' := fun x hx => h x (List.mem_cons_of_mem c hx)
    rw [List.cons_append]
    rw [show tok true (c :: (t ++ cs)) acc = tok true (t ++ cs) (acc ++ [c]) from by
      simp [tok, hc]]
    rw [ih ht cs (acc ++ [c])]
    simp

lemma render_command_cons₂ (x y : String) (rest : List String) :
    render_command (x :: y :: rest) = escape_string x ++ " " ++ render_command (y :: rest) := by
  simp [render_command, join_string]

/-- Round trip of rendering and re-tokenizing for any argument list whose
arguments are nonempty and free of double quotes. -/
lemma tokenize_render (cmd : List String)
    (h : ∀ x ∈ cmd, x.data ≠ [] ∧ '"' ∉ x.data) :
    spec_tokenize (render_command cmd) = cmd := by
  unfold spec_tokenize
  induction cmd with
  | nil => rfl
  | cons x xs ih =>
    have hx := h x (List.mem_cons_self x xs)
    have hxq : ∀ c ∈ x.data, c ≠ '"' := by
      intro c hc heq
      exact hx.2 (heq ▸ hc)
    cases xs with
    | nil =>
      show tok false (render_command [x]).data [] = [x]
      have hr : render_command [x] = escape_string x := by
        simp [render_command, join_string]
      rw [hr]
      unfold escape_string
      by_cases hsp : ' ' ∈ x.data
      · rw [if_pos hsp]
        rw [string_data_append, string_data_append]
        show tok false ('"' :: (x.data ++ ['"'])) [] = [x]
        rw [show tok false ('"' :: (x.data ++ ['"'])) [] = tok true (x.data ++ ['"']) [] from by
          simp [tok]]
        rw [tok_quoted_chars x.data hxq ['"'] []]
        simp [tok, hx.1, string_mk_data]
      · rw [if_neg hsp]
        have hplain : ∀ c ∈ x.data, c ≠ '"' ∧ c ≠ ' ' := by
          intro c hc
          exact ⟨hxq c hc, fun heq => hsp (heq ▸ hc)⟩
        rw [show x.data = x.data ++ [] from by simp]
        rw [tok_plain_chars x.data hplain [] []]
        simp [tok, hx.1, string_mk_data]
    | cons y ys =>
      have ihr := ih (fun z hz => h z (List.mem_cons_of_mem x hz))
      rw [render_command_cons₂]
      have hdata : (escape_string x ++ " " ++ render_command (y :: ys)).data =
          (escape_string x).data ++ (' ' :: (render_command (y :: ys)).data) := by
        rw [string_data_append, string_data_append,
          show (" " : String).data = [' '] from rfl, List.append_assoc]
        exact rfl
      rw [hdata]
      unfold escape_string
      by_cases hsp : ' ' ∈ x.data
      · rw [if_pos hsp]
        rw [string_data_append, string_data_append]
        rw [show (("\"" : String).data ++ x.data ++ ("\"" : String).data) ++
            (' ' :: (render_command (y :: ys)).data) =
            '"' :: (x.data ++ ('"' :: ' ' :: (render_command (y :: ys)).data)) from by
          simp]
        rw [show tok false ('"' :: (x.data ++ ('"' :: ' ' :: (render_command (y :: ys)).data))) [] =
            tok true (x.data ++ ('"' :: ' ' :: (render_command (y :: ys)).data)) [] from by
          simp [tok]]
        rw [tok_quoted_chars x.data hxq _ []]
        rw [show tok true (('"' :: ' ' :: (render_command (y :: ys)).data)) ([] ++ x.data) =
            tok false (' ' :: (render_command (y :: ys)).data) x.data from by
          simp [tok]]
        rw [show tok false (' ' :: (render_command (y :: ys)).data) x.data =
            String.mk x.data :: tok false (render_command (y :: ys)).data [] from by
          simp [tok, hx.1]]
        rw [string_mk_data, ihr]
      · rw [if_neg hsp]
        have hplain : ∀ c ∈ x.data, c ≠ '"' ∧ c ≠ ' ' := by
          intro c hc
          exact ⟨hxq c hc, fun heq => hsp (heq ▸ hc)⟩
        rw [tok_plain_chars x.data hplain _ []]
        rw [show tok false (' ' :: (render_command (y :: ys)).data) ([] ++ x.data) =
            String.mk x.data :: tok false (render_command (y :: ys)).data [] from by
          simp [tok, hx.1]]
        rw [string_mk_data, ihr]

/-- C6 counterexample.  A built command holding an empty argument (empty
speed-preset value) renders to a string with two consecutive spaces;
re-tokenizing drops the empty argument, so the round trip fails to
reproduce the original argument list. -/
theorem c6_roundtrip_counterexample :
    "" ∈ build_ffmpeg_command "in.mp4" "out.mkv" c6_params 1 1 false ∧
    spec_tokenize (render_command (build_ffmpeg_command "in.mp4" "out.mkv" c6_params 1 1 false)) ≠
      build_ffmpeg_command "in.mp4" "out.mkv" c6_params 1 1 false := by
  refine ⟨by decide, by decide⟩

/-- C6 (amended).  For every argument list produced by buildSingle in which
every argument is nonempty and contains no double-quote character,
rendering (quoting space-containing arguments, joining with spaces) and
re-tokenizing on spaces while respecting quoted segments reproduces the
original argument list. -/
theorem c6_roundtrip_amended (i o : String) (p : FFmpegParams) (ad ps : Int) (v : Bool)
    (h : ∀ x ∈ build_ffmpeg_command i o p ad ps v, x.data ≠ [] ∧ '"' ∉ x.data) :
    spec_tokenize (render_command (build_ffmpeg_command i o p ad ps v)) =
      build_ffmpeg_command i o p ad ps v :=
  tokenize_render _ h

/-- Witness for C6 at concrete inputs: with a space-containing input path
and output path, the quoted rendering re-tokenizes to the original list. -/
theorem c6_roundtrip_amended_witness :
    ' ' ∈ ("my file.mp4" : String).data ∧
    spec_tokenize (render_command
        (build_ffmpeg_command "my file.mp4" "out dir/o.mkv" sample_params 1 1 false)) =
      build_ffmpeg_command "my file.mp4" "out dir/o.mkv" sample_params 1 1 false :=
  ⟨by decide,
    c6_roundtrip_amended "my file.mp4" "out dir/o.mkv" sample_params 1 1 false (by decide)⟩
